import Mathlib

/-!
Verification of the reranking searcher (`mtc2413-searcher.py`).

The file shallow-embeds the scoring core of the searcher: the global
scoring constants, the truncated-exponential saturation transform, the
normalized term-frequency features, the FIRE topic-file parser, the
fallback IDF calculator with its per-instance cache, and the per-query
reranking loop with its stable descending sort.  Floating-point values
are modelled as real numbers; Python exceptions as `Option`.
-/

namespace MTC2413

/-- Global scoring constant `c = 1.0`. -/
def c : ℝ := 1

/-- Global mixing weight `alpha = 0.5`. -/
noncomputable def alpha : ℝ := 1/2

/-- Saturation threshold for the X signal, `tau_x = 6`. -/
def tau_x : ℝ := 6

/-- Saturation threshold for the Y signal, `tau_y = 65`. -/
def tau_y : ℝ := 65

/-- Exponential rate `lambda_exp = 0.5`. -/
noncomputable def lambda_exp : ℝ := 1/2

/-- The saturation transform `truncated_exp_score(x, tau, lambda_)`:
exponential branch on `0 < x < tau/2`, linear branch on `x <= tau`,
and `0` beyond `tau`. -/
noncomputable def truncated_exp_score (x tau lambda_ : ℝ) : ℝ :=
  if 0 < x ∧ x < tau / 2 then
    (1 - Real.exp (-lambda_ * x)) / (1 - Real.exp (-lambda_ * tau))
  else if x ≤ tau then
    x / tau
  else
    0

theorem truncated_exp_score_exp_branch (x tau lambda_ : ℝ)
    (h1 : 0 < x) (h2 : x < tau / 2) :
    truncated_exp_score x tau lambda_ =
      (1 - Real.exp (-lambda_ * x)) / (1 - Real.exp (-lambda_ * tau)) := by
  simp only [truncated_exp_score]
  rw [if_pos ⟨h1, h2⟩]

theorem truncated_exp_score_lin_branch (x tau lambda_ : ℝ)
    (h1 : ¬ (0 < x ∧ x < tau / 2)) (h2 : x ≤ tau) :
    truncated_exp_score x tau lambda_ = x / tau := by
  simp only [truncated_exp_score]
  rw [if_neg h1, if_pos h2]

theorem truncated_exp_score_zero_branch (x tau lambda_ : ℝ)
    (h1 : ¬ (0 < x ∧ x < tau / 2)) (h2 : ¬ (x ≤ tau)) :
    truncated_exp_score x tau lambda_ = 0 := by
  simp only [truncated_exp_score]
  rw [if_neg h1, if_neg h2]

/-- The exponential branch evaluated at `t` differs from `1/2` whenever the
full saturation interval is `2*t` and `t` has positive exponent mass:
`(1 - e^(-t)) / (1 - e^(-2t)) = 1/(1 + e^(-t)) > 1/2`. -/
theorem exp_branch_at_half_ne (t : ℝ) (ht : 0 < t) :
    (1 - Real.exp (-t)) / (1 - Real.exp (-(2 * t))) ≠ 1 / 2 := by
  have ha1 : Real.exp (-t) < 1 := by
    have := Real.exp_lt_exp.mpr (show -t < 0 by linarith)
    simpa using this
  have ha0 : 0 < Real.exp (-t) := Real.exp_pos _
  have hd : Real.exp (-(2 * t)) = Real.exp (-t) * Real.exp (-t) := by
    rw [← Real.exp_add]; ring_nf
  intro h
  rw [hd] at h
  set a := Real.exp (-t) with hadef
  have hden : 1 - a * a ≠ 0 := by nlinarith
  rw [div_eq_iff hden] at h
  nlinarith [sq_nonneg (a - 1)]

/-- C6: for every `tau > 0` and every `lambda`, the saturation transform
sends `0` to `0` and `tau` to `1`. -/
theorem C6_saturation_endpoints (tau lambda_ : ℝ) (htau : 0 < tau) :
    truncated_exp_score 0 tau lambda_ = 0 ∧
      truncated_exp_score tau tau lambda_ = 1 := by
  constructor
  · rw [truncated_exp_score_lin_branch 0 tau lambda_
      (by rintro ⟨h, _⟩; exact lt_irrefl 0 h) (le_of_lt htau)]
    exact zero_div tau
  · rw [truncated_exp_score_lin_branch tau tau lambda_
      (by rintro ⟨_, h2⟩; linarith) le_rfl]
    exact div_self htau.ne'

/-- C6 witness: endpoint identities at the concrete parameters `tau = 6`,
`lambda = 1/2`. -/
theorem C6_saturation_endpoints_witness :
    truncated_exp_score 0 6 (1/2) = 0 ∧ truncated_exp_score 6 6 (1/2) = 1 :=
  C6_saturation_endpoints 6 (1/2) (by norm_num)

/-- C1: for the two fixed parameter sets `(tau=6, lambda=1/2)` and
`(tau=65, lambda=1/2)`, the transform follows the exponential branch on
`0 < x < tau/2`, the linear branch on `tau/2 ≤ x ≤ tau`, and returns `0`
(not `1`) for `x > tau`; moreover the exponential branch does not meet
the linear branch at `x = tau/2`, so the curve is discontinuous there. -/
theorem C1_truncated_exp_score_branches :
    (∀ x : ℝ, 0 < x → x < 3 →
      truncated_exp_score x 6 (1/2) =
        (1 - Real.exp (-(1/2) * x)) / (1 - Real.exp (-(1/2) * 6))) ∧
    (∀ x : ℝ, 3 ≤ x → x ≤ 6 → truncated_exp_score x 6 (1/2) = x / 6) ∧
    (∀ x : ℝ, 6 < x → truncated_exp_score x 6 (1/2) = 0) ∧
    (∀ x : ℝ, 0 < x → x < 65/2 →
      truncated_exp_score x 65 (1/2) =
        (1 - Real.exp (-(1/2) * x)) / (1 - Real.exp (-(1/2) * 65))) ∧
    (∀ x : ℝ, 65/2 ≤ x → x ≤ 65 → truncated_exp_score x 65 (1/2) = x / 65) ∧
    (∀ x : ℝ, 65 < x → truncated_exp_score x 65 (1/2) = 0) ∧
    (1 - Real.exp (-(1/2) * 3)) / (1 - Real.exp (-(1/2) * 6)) ≠
      truncated_exp_score 3 6 (1/2) ∧
    (1 - Real.exp (-(1/2) * (65/2))) / (1 - Real.exp (-(1/2) * 65)) ≠
      truncated_exp_score (65/2) 65 (1/2) := by
  refine ⟨?_, ?_, ?_, ?_, ?_, ?_, ?_, ?_⟩
  · intro x h1 h2
    exact truncated_exp_score_exp_branch x 6 (1/2) h1 (by linarith)
  · intro x h1 h2
    exact truncated_exp_score_lin_branch x 6 (1/2)
      (by rintro ⟨_, h⟩; norm_num at h; linarith) h2
  · intro x h1
    exact truncated_exp_score_zero_branch x 6 (1/2)
      (by rintro ⟨_, h⟩; norm_num at h; linarith) (by linarith)
  · intro x h1 h2
    exact truncated_exp_score_exp_branch x 65 (1/2) h1 (by linarith)
  · intro x h1 h2
    exact truncated_exp_score_lin_branch x 65 (1/2)
      (by rintro ⟨_, h⟩; norm_num at h; linarith) h2
  · intro x h1
    exact truncated_exp_score_zero_branch x 65 (1/2)
      (by rintro ⟨_, h⟩; norm_num at h; linarith) (by linarith)
  · rw [truncated_exp_score_lin_branch 3 6 (1/2)
      (by rintro ⟨_, h⟩; norm_num at h) (by norm_num)]
    have := exp_branch_at_half_ne (3/2) (by norm_num)
    intro h
    apply this
    rw [show -(3/2 : ℝ) = -(1/2) * 3 by norm_num,
        show -(2 * (3/2) : ℝ) = -(1/2) * 6 by norm_num, h]
    norm_num
  · rw [truncated_exp_score_lin_branch (65/2) 65 (1/2)
      (by rintro ⟨_, h⟩; norm_num at h) (by norm_num)]
    have := exp_branch_at_half_ne (65/4) (by norm_num)
    intro h
    apply this
    rw [show -(65/4 : ℝ) = -(1/2) * (65/2) by norm_num,
        show -(2 * (65/4) : ℝ) = -(1/2) * 65 by norm_num, h]
    norm_num

/-- C1 witness: concrete evaluations in each of the three regions for the
`(tau=6, lambda=1/2)` parameter set. -/
theorem C1_truncated_exp_score_branches_witness :
    truncated_exp_score 1 6 (1/2) =
      (1 - Real.exp (-(1/2) * 1)) / (1 - Real.exp (-(1/2) * 6)) ∧
    truncated_exp_score 4 6 (1/2) = 4 / 6 ∧
    truncated_exp_score 7 6 (1/2) = 0 ∧
    truncated_exp_score 40 65 (1/2) = 40 / 65 :=
  ⟨C1_truncated_exp_score_branches.1 1 (by norm_num) (by norm_num),
   C1_truncated_exp_score_branches.2.1 4 (by norm_num) (by norm_num),
   C1_truncated_exp_score_branches.2.2.1 7 (by norm_num),
   C1_truncated_exp_score_branches.2.2.2.2.1 40 (by norm_num) (by norm_num)⟩

/-! ### String primitives

Executable models of the Python string operations the searcher uses:
`str.strip`, `str.replace`, `str.split()` (whitespace runs), slicing and
`str.startswith`.  All are structurally recursive so that concrete
topic streams evaluate inside the kernel. -/

/-- Model of Python `str.strip()` on character lists: drop whitespace from
both ends. -/
def stripChars (l : List Char) : List Char :=
  ((l.dropWhile Char.isWhitespace).reverse.dropWhile Char.isWhitespace).reverse

/-- Model of Python `str.strip()`. -/
def pyStrip (s : String) : String := ⟨stripChars s.data⟩

/-- Model of Python `str.startswith(pat)`. -/
def pyStartsWith (s pat : String) : Bool := pat.data.isPrefixOf s.data

/-- Model of Python slicing `s[n:]`. -/
def pyDrop (s : String) (n : ℕ) : String := ⟨s.data.drop n⟩

/-- Fuel-indexed left-to-right non-overlapping replacement of `pat` by
`repl`; with fuel at least the list length it models Python
`str.replace` for a non-empty pattern. -/
def replaceFuel (pat repl : List Char) : ℕ → List Char → List Char
  | _, [] => []
  | 0, l => l
  | fuel + 1, x :: xs =>
    if pat ≠ [] ∧ pat.isPrefixOf (x :: xs) then
      repl ++ replaceFuel pat repl fuel ((x :: xs).drop pat.length)
    else
      x :: replaceFuel pat repl fuel xs

/-- Model of Python `s.replace(pat, repl)` (all occurrences, left to
right, non-overlapping). -/
def pyReplace (s pat repl : String) : String :=
  ⟨replaceFuel pat.data repl.data s.data.length s.data⟩

/-- Helper for the model of Python `str.split()`: accumulate the current
word (reversed) while scanning. -/
def wordsAux (cur : List Char) : List Char → List (List Char)
  | [] => if cur = [] then [] else [cur.reverse]
  | ch :: rest =>
    if ch.isWhitespace then
      if cur = [] then wordsAux [] rest else cur.reverse :: wordsAux [] rest
    else
      wordsAux (ch :: cur) rest

/-- Model of Python `str.split()` with no argument: split on runs of
whitespace, no empty words. -/
def pySplit (s : String) : List String :=
  (wordsAux [] s.data).map fun l => ⟨l⟩

/-! ### QueryBatchParser (`parse_fire_queries`) -/

/-- Parser state of `parse_fire_queries`: the captured identifier and
title (`None` initially) and the insertion-ordered query dictionary. -/
structure ParseState where
  qid : Option String
  title : Option String
  queries : List (String × String)

/-- Python truthiness of an optional string: `None` and `""` are falsy. -/
def truthy : Option String → Bool
  | none => false
  | some s => !(s == "")

/-- Python dict assignment `d[k] = v` on an insertion-ordered
association list: update in place if the key exists, else append. -/
def dictInsert (k v : String) : List (String × String) → List (String × String)
  | [] => [(k, v)]
  | (k', v') :: rest =>
    if k' == k then (k, v) :: rest else (k', v') :: dictInsert k v rest

/-- One line of `parse_fire_queries`: strip the line; a `<num>` line
captures the identifier, a `<title>` line captures the title, and a
`</top>` line with both fields truthy emits the pair and resets both.
Any other line (including `</top>` with a missing field) leaves the
state unchanged. -/
def parseLine (st : ParseState) (line0 : String) : ParseState :=
  let line := pyStrip line0
  if pyStartsWith line "<num>" then
    { st with qid := some (pyStrip (pyReplace (pyReplace line "<num>" "") "</num>" "")) }
  else if pyStartsWith line "<title>" then
    { st with title := some (pyStrip (pyDrop line 7)) }
  else if pyStartsWith line "</top>" && truthy st.qid && truthy st.title then
    { qid := none, title := none,
      queries := dictInsert (st.qid.getD "") (st.title.getD "") st.queries }
  else
    st

/-- The topic-file parser `parse_fire_queries`, over the file's lines. -/
def parse_fire_queries (lines : List String) : List (String × String) :=
  (lines.foldl parseLine ⟨none, none, []⟩).queries

theorem pyStrip_top : pyStrip "</top>" = "</top>" := rfl

theorem startsWith_top_num : pyStartsWith "</top>" "<num>" = false := rfl

theorem startsWith_top_title : pyStartsWith "</top>" "<title>" = false := rfl

theorem startsWith_top_top : pyStartsWith "</top>" "</top>" = true := rfl

/-- C3 counterexample: in the stream
`<num>1</num>`, `</top>`, `<title> foo`, `</top>` the first record
is malformed (identifier but no title before its end marker), yet its
captured identifier is NOT dropped: it pairs with the next record's
title and the parser emits `("1", "foo")`. -/
theorem C3_counterexample :
    parse_fire_queries ["<num>1</num>", "</top>", "<title> foo", "</top>"] =
      [("1", "foo")] := by decide

/-- C3 amended: on a record-end marker, if both the identifier and the
title are captured and non-empty the parser emits the pair and resets
both fields; otherwise the line leaves the parser state entirely
unchanged — the partial fields are retained, not dropped, and may pair
with lines of later records. -/
theorem C3_parse_end_marker :
    (∀ (st : ParseState) (q t : String), st.qid = some q → st.title = some t →
        q ≠ "" → t ≠ "" →
        parseLine st "</top>" = ⟨none, none, dictInsert q t st.queries⟩) ∧
    (∀ st : ParseState, ¬ (truthy st.qid = true ∧ truthy st.title = true) →
        parseLine st "</top>" = st) := by
  constructor
  · intro st q t hq ht hq0 ht0
    simp only [parseLine, pyStrip_top, startsWith_top_num, startsWith_top_title,
      startsWith_top_top, hq, ht, truthy, Option.getD_some, Bool.true_and,
      if_false, Bool.false_eq_true, Bool.and_eq_true, Bool.not_eq_true',
      beq_eq_false_iff_ne, ne_eq]
    rw [if_pos ⟨hq0, ht0⟩]
  · intro st h
    simp only [parseLine, pyStrip_top, startsWith_top_num, startsWith_top_title,
      startsWith_top_top, Bool.true_and, if_false, Bool.false_eq_true]
    rw [if_neg]
    simp only [Bool.and_eq_true]
    exact h

/-- C3 witness: concrete end-marker steps — a complete record emits and
resets, a record missing its title leaves the state unchanged. -/
theorem C3_parse_end_marker_witness :
    parseLine ⟨some "1", some "t1", []⟩ "</top>" = ⟨none, none, [("1", "t1")]⟩ ∧
    parseLine ⟨some "1", none, []⟩ "</top>" = ⟨some "1", none, []⟩ :=
  ⟨C3_parse_end_marker.1 ⟨some "1", some "t1", []⟩ "1" "t1" rfl rfl
      (by decide) (by decide),
   C3_parse_end_marker.2 ⟨some "1", none, []⟩ (by decide)⟩

/-! ### FallbackIDFCalculator

The external retrieval capability is modelled as a function
`search : String → ℕ → Option (List ℝ)` returning the scores of the
hits of a bounded query, with `none` standing for a raised exception.
The calculator state is the estimated corpus size fixed at construction
plus the per-instance IDF cache.  `get_idf` additionally reports how
many retrieval calls the lookup issued (0 on a cache hit, 1 otherwise),
so that "no new retrieval call" is a statement of the model. -/

/-- State of `FallbackIDFCalculator`: the corpus-size estimate fixed at
construction and the insertion-ordered IDF cache. -/
structure FallbackIDFCalculator where
  doc_count : ℤ
  term_cache : List (String × ℝ)

/-- Python `int(x)` on a float: truncation toward zero. -/
noncomputable def pyInt (x : ℝ) : ℤ := if 0 ≤ x then ⌊x⌋ else ⌈x⌉

/-- The constructor's `_estimate_doc_count`: probe `search("the", 1)`
and take the integer part of the top hit's score; default `1000000`
when the probe fails or returns no hits. -/
noncomputable def estimate_doc_count (search : String → ℕ → Option (List ℝ)) : ℤ :=
  match search "the" 1 with
  | some (h :: _) => pyInt h
  | some [] => 1000000
  | none => 1000000

/-- The `FallbackIDFCalculator` constructor: estimate the corpus size
once and start with an empty cache. -/
noncomputable def mkFallbackIDFCalculator
    (search : String → ℕ → Option (List ℝ)) : FallbackIDFCalculator :=
  ⟨estimate_doc_count search, []⟩

/-- The calculator's `get_idf`: on a cache hit return the stored value
(no retrieval call); on a miss issue `search(term, 100)`, take
`df` as the number of returned hits, compute
`ln((doc_count + 1) / (df + 1))` and append it to the cache; if the
retrieval call fails, return `0` without touching the cache.  The last
component counts the retrieval calls the lookup issued. -/
noncomputable def get_idf (search : String → ℕ → Option (List ℝ))
    (cal : FallbackIDFCalculator) (term : String) :
    ℝ × FallbackIDFCalculator × ℕ :=
  match cal.term_cache.lookup term with
  | some v => (v, cal, 0)
  | none =>
    match search term 100 with
    | some hits =>
      let df : ℕ := hits.length
      let idf := Real.log (((cal.doc_count : ℝ) + 1) / ((df : ℝ) + 1))
      (idf, { cal with term_cache := cal.term_cache ++ [(term, idf)] }, 1)
    | none => (0, cal, 1)

/-- C8: on a cache miss with a successful retrieval call the fallback
provider returns `ln((doc_count+1)/(df+1))` where `df` is the number of
hits of a call capped at 100 results (so `df ≤ 100` whenever the
retrieval capability honours its bound); on a failed retrieval call it
returns `0` instead of raising; and the corpus size is fixed at
construction as the integer part of the probe's top-hit score,
defaulting to `1000000` when the probe returns nothing or fails. -/
theorem C8_fallback_idf_contract :
    (∀ (search : String → ℕ → Option (List ℝ)) (cal : FallbackIDFCalculator)
        (term : String) (hits : List ℝ),
      (∀ q k l, search q k = some l → l.length ≤ k) →
      cal.term_cache.lookup term = none →
      search term 100 = some hits →
      (get_idf search cal term).1 =
          Real.log (((cal.doc_count : ℝ) + 1) / ((hits.length : ℝ) + 1)) ∧
        hits.length ≤ 100) ∧
    (∀ (search : String → ℕ → Option (List ℝ)) (cal : FallbackIDFCalculator)
        (term : String),
      cal.term_cache.lookup term = none →
      search term 100 = none →
      (get_idf search cal term).1 = 0) ∧
    (∀ (search : String → ℕ → Option (List ℝ)) (h : ℝ) (rest : List ℝ),
      search "the" 1 = some (h :: rest) →
      (mkFallbackIDFCalculator search).doc_count = pyInt h) ∧
    (∀ search : String → ℕ → Option (List ℝ),
      search "the" 1 = some [] →
      (mkFallbackIDFCalculator search).doc_count = 1000000) ∧
    (∀ search : String → ℕ → Option (List ℝ),
      search "the" 1 = none →
      (mkFallbackIDFCalculator search).doc_count = 1000000) := by
  refine ⟨?_, ?_, ?_, ?_, ?_⟩
  · intro search cal term hits hcap hmiss hsearch
    constructor
    · simp only [get_idf, hmiss, hsearch]
    · exact hcap term 100 hits hsearch
  · intro search cal term hmiss hsearch
    simp only [get_idf, hmiss, hsearch]
  · intro search h rest hprobe
    simp only [mkFallbackIDFCalculator, estimate_doc_count, hprobe]
  · intro search hprobe
    simp only [mkFallbackIDFCalculator, estimate_doc_count, hprobe]
  · intro search hprobe
    simp only [mkFallbackIDFCalculator, estimate_doc_count, hprobe]

/-- C8 witness: a concrete bounded searcher (returning one hit of score 3
for every query) and a concrete always-failing searcher exercise the
success, the probe and the failure cases. -/
theorem C8_fallback_idf_contract_witness :
    (get_idf (fun _ k => some (List.replicate (min 1 k) 3)) ⟨3, []⟩ "cat").1 =
      Real.log 2 ∧
    (get_idf (fun _ _ => none) ⟨3, []⟩ "cat").1 = 0 ∧
    (mkFallbackIDFCalculator (fun _ k => some (List.replicate (min 1 k) 3))).doc_count =
      pyInt 3 ∧
    (mkFallbackIDFCalculator (fun _ _ => none)).doc_count = 1000000 := by
  have hcap : ∀ (q : String) (k : ℕ) (l : List ℝ),
      (fun (_ : String) (k : ℕ) => some (List.replicate (min 1 k) (3 : ℝ))) q k = some l →
      l.length ≤ k := by
    intro q k l hl
    simp only [Option.some.injEq] at hl
    subst hl
    simp
  refine ⟨?_, ?_, ?_, ?_⟩
  · have h := (C8_fallback_idf_contract.1
      (fun _ k => some (List.replicate (min 1 k) 3)) ⟨3, []⟩ "cat" [3]
      hcap rfl rfl).1
    norm_num at h
    exact h
  · exact C8_fallback_idf_contract.2.1 (fun _ _ => none) ⟨3, []⟩ "cat" rfl rfl
  · exact C8_fallback_idf_contract.2.2.1
      (fun _ k => some (List.replicate (min 1 k) 3)) 3 [] rfl
  · exact C8_fallback_idf_contract.2.2.2.2 (fun _ _ => none) rfl

theorem lookup_append_of_none {β : Type} {l1 l2 : List (String × β)} {t : String}
    (h : l1.lookup t = none) : (l1 ++ l2).lookup t = l2.lookup t := by
  induction l1 with
  | nil => simp
  | cons p rest ih =>
    obtain ⟨k, v⟩ := p
    simp only [List.lookup, List.cons_append] at h ⊢
    rcases hk : (t == k) with _ | _
    · rw [hk] at h
      exact ih h
    · rw [hk] at h
      simp at h

/-- C9 counterexample: with an always-failing searcher, `get_idf` returns
`0` but stores nothing — the cache stays empty, the next lookup for the
same term issues a new retrieval call (call count 1, not 0), and with a
then-working searcher that next lookup returns a nonzero value instead
of the earlier `0`. -/
theorem C9_counterexample :
    (get_idf (fun _ _ => none) ⟨1000000, []⟩ "a").1 = 0 ∧
    (get_idf (fun _ _ => none) ⟨1000000, []⟩ "a").2.1.term_cache = [] ∧
    (get_idf (fun _ _ => none)
      ((get_idf (fun _ _ => none) ⟨1000000, []⟩ "a").2.1) "a").2.2 = 1 ∧
    (get_idf (fun _ _ => some [])
      ((get_idf (fun _ _ => none) ⟨1000000, []⟩ "a").2.1) "a").1 ≠ 0 := by
  refine ⟨rfl, rfl, rfl, ?_⟩
  show (get_idf (fun _ _ => some []) ⟨1000000, []⟩ "a").1 ≠ 0
  have h : (get_idf (fun _ _ => some ([] : List ℝ)) ⟨1000000, []⟩ "a").1 =
      Real.log ((((1000000 : ℤ) : ℝ) + 1) / ((((0 : ℕ) : ℝ)) + 1)) := rfl
  have harg : ((((1000000 : ℤ) : ℝ) + 1) / ((((0 : ℕ) : ℝ)) + 1)) = 1000001 := by
    norm_num
  rw [h, harg]
  exact ne_of_gt (Real.log_pos (by norm_num))

/-- C9 amended: once a term's IDF has been successfully computed it is
stored, and every later lookup returns the stored value with no new
retrieval call and no state change; the cache is only ever appended to;
but a lookup whose retrieval call fails returns `0` WITHOUT storing it,
leaving the cache unchanged, so a later lookup for that term issues a
new retrieval call. -/
theorem C9_cache_invariant :
    (∀ (search : String → ℕ → Option (List ℝ)) (cal : FallbackIDFCalculator)
        (term : String) (v : ℝ),
      cal.term_cache.lookup term = some v →
      get_idf search cal term = (v, cal, 0)) ∧
    (∀ (search : String → ℕ → Option (List ℝ)) (cal : FallbackIDFCalculator)
        (term : String), ∃ tail,
      (get_idf search cal term).2.1.term_cache = cal.term_cache ++ tail) ∧
    (∀ (search : String → ℕ → Option (List ℝ)) (cal : FallbackIDFCalculator)
        (term : String) (hits : List ℝ),
      cal.term_cache.lookup term = none → search term 100 = some hits →
      (get_idf search cal term).2.1.term_cache.lookup term =
        some (get_idf search cal term).1) ∧
    (∀ (search : String → ℕ → Option (List ℝ)) (cal : FallbackIDFCalculator)
        (term : String),
      cal.term_cache.lookup term = none → search term 100 = none →
      get_idf search cal term = (0, cal, 1)) := by
  refine ⟨?_, ?_, ?_, ?_⟩
  · intro search cal term v h
    simp only [get_idf, h]
  · intro search cal term
    rcases hl : cal.term_cache.lookup term with _ | v
    · rcases hs : search term 100 with _ | hits
      · exact ⟨[], by simp [get_idf, hl, hs]⟩
      · exact ⟨[(term, Real.log (((cal.doc_count : ℝ) + 1) / ((hits.length : ℝ) + 1)))],
          by simp [get_idf, hl, hs]⟩
    · exact ⟨[], by simp [get_idf, hl]⟩
  · intro search cal term hits hl hs
    simp only [get_idf, hl, hs]
    rw [lookup_append_of_none hl]
    simp [List.lookup]
  · intro search cal term hl hs
    simp only [get_idf, hl, hs]

/-- C9 witness: a cache hit returns the stored value with no retrieval
call; a successful miss stores the computed value under the term; a
failed miss returns `0` and leaves the calculator unchanged. -/
theorem C9_cache_invariant_witness :
    get_idf (fun _ _ => none) ⟨5, [("a", 7)]⟩ "a" = (7, ⟨5, [("a", 7)]⟩, 0) ∧
    ((get_idf (fun _ _ => some []) ⟨5, []⟩ "b").2.1.term_cache.lookup "b" =
      some (get_idf (fun _ _ => some []) ⟨5, []⟩ "b").1) ∧
    get_idf (fun _ _ => none) ⟨5, []⟩ "b" = (0, ⟨5, []⟩, 1) :=
  ⟨C9_cache_invariant.1 (fun _ _ => none) ⟨5, [("a", 7)]⟩ "a" 7 rfl,
   C9_cache_invariant.2.2.1 (fun _ _ => some []) ⟨5, []⟩ "b" [] rfl rfl,
   C9_cache_invariant.2.2.2 (fun _ _ => none) ⟨5, []⟩ "b" rfl rfl⟩

/-! ### FeatureComputer and Reranker

The reranker is parametric in the IDF calculator, modelled as a state
transformer `getIdf : σ → String → ℝ × σ`; raw-content lookup is
`raw : String → Option (Option String)` where the outer `none` is a
raised exception (the document is then excluded) and `some none` is a
successful call whose `raw()` is `None` (content becomes `""`). -/

/-- The feature computer `compute_normalized_tf(tf, doc_len, mean_tf)`:
`X = ln(1+tf)/ln(c+mean_tf)` guarded by `mean_tf > 0`,
`Y = tf*ln(1+1000/doc_len)` guarded by `doc_len > 0`. -/
noncomputable def compute_normalized_tf (tf doc_len mean_tf : ℝ) : ℝ × ℝ :=
  (if 0 < mean_tf then Real.log (1 + tf) / Real.log (c + mean_tf) else 0,
   if 0 < doc_len then tf * Real.log (1 + 1000 / doc_len) else 0)

/-- The mean query-term frequency `mean_tf`: the query's
whitespace-split term sequence (duplicates included) is filtered to the
terms present in the document, their in-document frequencies are
summed, and the sum is divided by the total number of query tokens;
`0` when no query term occurs in the document. -/
noncomputable def mean_tf (query : String) (words : List String) : ℝ :=
  let query_terms := (pySplit query).filter (fun t => words.count t != 0)
  if query_terms = [] then 0
  else (((query_terms.map (fun t => words.count t)).sum : ℕ) : ℝ) /
    (((pySplit query).length : ℕ) : ℝ)

/-- One iteration of the reranker's per-term loop: a term with zero
frequency in the document is skipped outright; otherwise the `(X, Y)`
features are computed, saturated with `(tau_x, lambda_exp)` and
`(tau_y, lambda_exp)`, mixed with weight `alpha`, weighted by the
term's IDF (one stateful lookup) and added to the running score. -/
noncomputable def scoreStep {σ : Type} (getIdf : σ → String → ℝ × σ)
    (words : List String) (m : ℝ) (acc : ℝ × σ) (term : String) : ℝ × σ :=
  if words.count term = 0 then acc
  else
    let XY := compute_normalized_tf ((words.count term : ℕ) : ℝ)
      ((words.length : ℕ) : ℝ) m
    let f_xt := truncated_exp_score XY.1 tau_x lambda_exp
    let f_yt := truncated_exp_score XY.2 tau_y lambda_exp
    let r := getIdf acc.2 term
    (acc.1 + r.1 * (alpha * f_xt + (1 - alpha) * f_yt), r.2)

/-- The reranker's per-document score: fold the per-term loop over the
query's term sequence, starting from score `0.0`, with `mean_tf`
computed once for the document. -/
noncomputable def scoreDoc {σ : Type} (getIdf : σ → String → ℝ × σ)
    (query : String) (words : List String) (s : σ) : ℝ × σ :=
  (pySplit query).foldl (scoreStep getIdf words (mean_tf query words)) (0, s)

/-- Per-candidate processing inside `rerank`'s try block: a failed raw
lookup (`none`) excludes the document; otherwise a `None` raw content
becomes the empty text, the document is split into words, and the
document is scored. -/
noncomputable def processHit {σ : Type} (getIdf : σ → String → ℝ × σ)
    (query : String) (raw : String → Option (Option String)) (s : σ)
    (docid : String) : Option ((String × ℝ) × σ) :=
  match raw docid with
  | none => none
  | some r =>
    let content := r.getD ""
    let words := pySplit content
    let sc := scoreDoc getIdf query words s
    some ((docid, sc.1), sc.2)

/-- The reranker's candidate loop: documents whose processing fails are
skipped, kept documents are appended in baseline order. -/
noncomputable def rerankAccum {σ : Type} (getIdf : σ → String → ℝ × σ)
    (query : String) (hits : List String)
    (raw : String → Option (Option String)) (s : σ) :
    List (String × ℝ) × σ :=
  hits.foldl
    (fun acc docid =>
      match processHit getIdf query raw acc.2 docid with
      | none => acc
      | some (entry, s2) => (acc.1 ++ [entry], s2))
    ([], s)

/-- The final sort of `rerank`: a stable sort by score descending
(Python `list.sort(key=score, reverse=True)`). -/
noncomputable def sortDocs (l : List (String × ℝ)) : List (String × ℝ) :=
  l.mergeSort (fun a b => decide (b.2 ≤ a.2))

/-- The reranker `rerank(query, hits, searcher, idf_calculator)`:
score every candidate, then sort by score descending (stable). -/
noncomputable def rerank {σ : Type} (getIdf : σ → String → ℝ × σ)
    (query : String) (hits : List String)
    (raw : String → Option (Option String)) (s : σ) :
    List (String × ℝ) × σ :=
  let acc := rerankAccum getIdf query hits raw s
  (sortDocs acc.1, acc.2)

theorem sum_map_filter_ne_zero (f : String → ℕ) (l : List String) :
    ((l.filter (fun t => f t != 0)).map f).sum = (l.map f).sum := by
  induction l with
  | nil => rfl
  | cons a rest ih =>
    by_cases h : f a = 0
    · simp [List.filter_cons, h, ih]
    · simp [List.filter_cons, h, ih]

/-- C4: the mean query-term frequency is the sum of the in-document
frequencies of all query tokens (duplicates included; absent tokens
contribute 0) divided by the total number of query tokens, and it is 0
when no query term occurs in the document. -/
theorem C4_mean_tf_formula :
    (∀ (query : String) (words : List String),
      (pySplit query).any (fun t => words.count t != 0) = true →
      mean_tf query words =
        ((((pySplit query).map (fun t => words.count t)).sum : ℕ) : ℝ) /
          (((pySplit query).length : ℕ) : ℝ)) ∧
    (∀ (query : String) (words : List String),
      (∀ t ∈ pySplit query, words.count t = 0) →
      mean_tf query words = 0) := by
  constructor
  · intro query words hany
    have hne : (pySplit query).filter (fun t => words.count t != 0) ≠ [] := by
      intro hnil
      rw [List.any_eq_true] at hany
      obtain ⟨t, ht, hp⟩ := hany
      have := List.filter_eq_nil_iff.mp hnil t ht
      exact this hp
    simp only [mean_tf, if_neg hne]
    rw [sum_map_filter_ne_zero (fun t => words.count t) (pySplit query)]
  · intro query words hall
    have hnil : (pySplit query).filter (fun t => words.count t != 0) = [] := by
      apply List.filter_eq_nil_iff.mpr
      intro t ht
      simp [hall t ht]
    simp only [mean_tf, hnil, if_pos]

/-- C4 witness: for query `"a a b"` (duplicate token) and document
`["a"]` the mean is `(1+1+0)/3 = 2/3`; when no query term occurs the
mean is `0`. -/
theorem C4_mean_tf_formula_witness :
    mean_tf "a a b" ["a"] = 2/3 ∧ mean_tf "b" ["a"] = 0 := by
  constructor
  · have h := C4_mean_tf_formula.1 "a a b" ["a"] (by decide)
    rw [show pySplit "a a b" = ["a", "a", "b"] from rfl] at h
    rw [show ((["a", "a", "b"] : List String).map
        (fun t => (["a"] : List String).count t)).sum = 2 from by decide] at h
    norm_num at h
    exact h
  · exact C4_mean_tf_formula.2 "b" ["a"] (by decide)

theorem scoreStep_of_count_zero {σ : Type} (getIdf : σ → String → ℝ × σ)
    (words : List String) (m : ℝ) (acc : ℝ × σ) (term : String)
    (h : words.count term = 0) :
    scoreStep getIdf words m acc term = acc := by
  simp [scoreStep, h]

theorem foldl_scoreStep_nil_words {σ : Type} (getIdf : σ → String → ℝ × σ)
    (m : ℝ) (l : List String) (acc : ℝ × σ) :
    l.foldl (scoreStep getIdf [] m) acc = acc := by
  induction l generalizing acc with
  | nil => rfl
  | cons t rest ih =>
    rw [List.foldl_cons, scoreStep_of_count_zero getIdf [] m acc t rfl, ih]

/-- C5: a query term with zero frequency in the document is skipped by
the per-term loop: the running score and the IDF-calculator state are
both left exactly as they were, for EVERY possible IDF calculator — in
particular no IDF lookup happens and the cache is untouched. -/
theorem C5_zero_tf_no_contribution {σ : Type} (getIdf : σ → String → ℝ × σ)
    (words : List String) (m : ℝ) (acc : ℝ × σ) (term : String)
    (h : words.count term = 0) :
    scoreStep getIdf words m acc term = acc :=
  scoreStep_of_count_zero getIdf words m acc term h

/-- C5 witness: a state-mutating, nonzero-IDF calculator is left
untouched by a term absent from the document. -/
theorem C5_zero_tf_no_contribution_witness :
    scoreStep (fun (n : ℕ) _ => ((5 : ℝ), n + 1)) [] 0 (0, 0) "cat" = (0, 0) :=
  C5_zero_tf_no_contribution (fun (n : ℕ) _ => ((5 : ℝ), n + 1)) [] 0 (0, 0) "cat" rfl

/-- C10: a candidate whose raw-content call succeeds but returns `None`
is scored as an empty document: it is kept with score `0.0` and an
untouched calculator state, and appears in the reranked output — unlike
a candidate whose retrieval raises, which is excluded. -/
theorem C10_none_raw_kept {σ : Type} (getIdf : σ → String → ℝ × σ)
    (query : String) (raw : String → Option (Option String)) (s : σ)
    (docid : String) :
    (raw docid = some none →
      processHit getIdf query raw s docid = some ((docid, 0), s)) ∧
    (raw docid = none → processHit getIdf query raw s docid = none) ∧
    (raw docid = some none →
      (docid, (0 : ℝ)) ∈ (rerank getIdf query [docid] raw s).1) := by
  have hkey : raw docid = some none →
      processHit getIdf query raw s docid = some ((docid, 0), s) := by
    intro h
    simp only [processHit, h, Option.getD_none]
    rw [show pySplit "" = [] from rfl]
    rw [show scoreDoc getIdf query [] s = (0, s) from
      foldl_scoreStep_nil_words getIdf (mean_tf query []) (pySplit query) (0, s)]
  refine ⟨hkey, ?_, ?_⟩
  · intro h
    simp only [processHit, h]
  · intro h
    simp only [rerank, rerankAccum, List.foldl_cons, List.foldl_nil, hkey h]
    simp [sortDocs]

/-- C10 witness: a concrete candidate with `raw() = None` is kept with
score `0.0`, a concrete failing candidate is excluded. -/
theorem C10_none_raw_kept_witness :
    processHit (fun (n : ℕ) _ => ((1 : ℝ), n)) "q" (fun _ => some none) 0 "d" =
      some (("d", 0), 0) ∧
    processHit (fun (n : ℕ) _ => ((1 : ℝ), n)) "q" (fun _ => none) 0 "d" = none ∧
    ("d", (0 : ℝ)) ∈
      (rerank (fun (n : ℕ) _ => ((1 : ℝ), n)) "q" ["d"] (fun _ => some none) 0).1 :=
  ⟨(C10_none_raw_kept (fun (n : ℕ) _ => ((1 : ℝ), n)) "q" (fun _ => some none) 0 "d").1 rfl,
   (C10_none_raw_kept (fun (n : ℕ) _ => ((1 : ℝ), n)) "q" (fun _ => none) 0 "d").2.1 rfl,
   (C10_none_raw_kept (fun (n : ℕ) _ => ((1 : ℝ), n)) "q" (fun _ => some none) 0 "d").2.2 rfl⟩

theorem sortLE_trans : ∀ a b c_ : String × ℝ,
    (fun a b : String × ℝ => decide (b.2 ≤ a.2)) a b = true →
    (fun a b : String × ℝ => decide (b.2 ≤ a.2)) b c_ = true →
    (fun a b : String × ℝ => decide (b.2 ≤ a.2)) a c_ = true := by
  intro a b c_ hab hbc
  simp only [decide_eq_true_eq] at hab hbc ⊢
  exact le_trans hbc hab

theorem sortLE_total : ∀ a b : String × ℝ,
    ((fun a b : String × ℝ => decide (b.2 ≤ a.2)) a b ||
      (fun a b : String × ℝ => decide (b.2 ≤ a.2)) b a) = true := by
  intro a b
  rcases le_total a.2 b.2 with h | h <;> simp [h]

/-- C7: the reranker's output is totally ordered by score descending
(each entry's score is at least every later entry's), and the sort is
stable: two entries with equal scores that occur in some order in the
pre-sort candidate accumulation (which follows the baseline order)
still occur in that order in the output. -/
theorem C7_sort_contract {σ : Type} (getIdf : σ → String → ℝ × σ)
    (query : String) (hits : List String)
    (raw : String → Option (Option String)) (s : σ) :
    ((rerank getIdf query hits raw s).1.Pairwise
      (fun a b : String × ℝ => b.2 ≤ a.2)) ∧
    (∀ a b : String × ℝ, a.2 = b.2 →
      List.Sublist [a, b] (rerankAccum getIdf query hits raw s).1 →
      List.Sublist [a, b] (rerank getIdf query hits raw s).1) := by
  constructor
  · have h := List.sorted_mergeSort sortLE_trans sortLE_total
      (rerankAccum getIdf query hits raw s).1
    simp only [rerank, sortDocs]
    exact h.imp (fun hab => by simpa using hab)
  · intro a b hab hsub
    simp only [rerank, sortDocs]
    exact List.pair_sublist_mergeSort sortLE_trans sortLE_total
      (by simpa using hab.symm.le) hsub

/-- C7 witness: two candidates with equal score `0.0` keep their
baseline order in the reranked output. -/
theorem C7_sort_contract_witness :
    List.Sublist [("d1", (0 : ℝ)), ("d2", 0)]
      (rerank (fun (u : Unit) _ => ((0 : ℝ), u)) "q" ["d1", "d2"]
        (fun _ => some (some "")) ()).1 := by
  have h := (C7_sort_contract (fun (u : Unit) _ => ((0 : ℝ), u)) "q" ["d1", "d2"]
      (fun _ => some (some "")) ()).2 ("d1", 0) ("d2", 0) rfl ?_
  · exact h
  · show List.Sublist [("d1", (0 : ℝ)), ("d2", 0)] [("d1", (0 : ℝ)), ("d2", 0)]
    exact List.Sublist.refl _

/-- Concrete document of the worked example: term counts `cat = 3`,
`dog = 2`, 95 filler tokens, total length 100. -/
def c2words : List String :=
  List.replicate 3 "cat" ++ List.replicate 2 "dog" ++ List.replicate 95 "z"

/-- Fixed stateless IDF assignment of the worked example:
`idf(cat) = 2.0`, `idf(dog) = 1.5`. -/
noncomputable def getIdfC2 : Unit → String → ℝ × Unit :=
  fun u t => (if t = "cat" then 2 else if t = "dog" then 3/2 else 0, u)

/-- C2: for query `"cat dog"`, the document with counts
`{cat: 3, dog: 2}` and length 100, and `idf(cat) = 2`, `idf(dog) = 1.5`:
the mean query-term frequency is `M = (3+2)/2 = 5/2`, and the reranked
score is exactly the sum of the two per-term contributions
`idf(t) * (1/2 * f(X_t) + 1/2 * f(Y_t))` with `X_cat = ln 4 / ln 3.5`,
`Y_cat = 3 ln 11`, `X_dog = ln 3 / ln 3.5`, `Y_dog = 2 ln 11`, all four
saturations landing in the exponential branch.  The exact equality
pins the score to every decimal place, in particular to four. -/
theorem C2_worked_example :
    mean_tf "cat dog" c2words = 5/2 ∧
    (scoreDoc getIdfC2 "cat dog" c2words ()).1 =
      2 * (1/2 * ((1 - Real.exp (-(1/2) * (Real.log 4 / Real.log (7/2)))) /
            (1 - Real.exp (-(1/2) * 6))) +
           1/2 * ((1 - Real.exp (-(1/2) * (3 * Real.log 11))) /
            (1 - Real.exp (-(1/2) * 65)))) +
      3/2 * (1/2 * ((1 - Real.exp (-(1/2) * (Real.log 3 / Real.log (7/2)))) /
            (1 - Real.exp (-(1/2) * 6))) +
           1/2 * ((1 - Real.exp (-(1/2) * (2 * Real.log 11))) /
            (1 - Real.exp (-(1/2) * 65)))) := by
  have e_split : pySplit "cat dog" = ["cat", "dog"] := rfl
  have e_ccat : c2words.count "cat" = 3 := by decide
  have e_cdog : c2words.count "dog" = 2 := by decide
  have e_len : c2words.length = 100 := by decide
  have eM : mean_tf "cat dog" c2words = 5/2 := by
    have h1 : (["cat", "dog"] : List String).filter
        (fun t => c2words.count t != 0) = ["cat", "dog"] := by decide
    simp only [mean_tf, e_split, h1]
    rw [if_neg (List.cons_ne_nil _ _),
      show ((["cat", "dog"] : List String).map
        (fun t => c2words.count t)).sum = 5 from by decide]
    norm_num
  refine ⟨eM, ?_⟩
  have hL35 : (0:ℝ) < Real.log (7/2) := Real.log_pos (by norm_num)
  have hpow : (3:ℝ) * Real.log (7/2) = Real.log ((7/2)^(3:ℕ)) := by
    rw [Real.log_pow]; push_cast; ring
  have hX1p : (0:ℝ) < Real.log 4 / Real.log (7/2) :=
    div_pos (Real.log_pos (by norm_num)) hL35
  have hX1b : Real.log 4 / Real.log (7/2) < 3 := by
    rw [div_lt_iff₀ hL35, hpow]
    exact Real.log_lt_log (by norm_num) (by norm_num)
  have hX2p : (0:ℝ) < Real.log 3 / Real.log (7/2) :=
    div_pos (Real.log_pos (by norm_num)) hL35
  have hX2b : Real.log 3 / Real.log (7/2) < 3 := by
    rw [div_lt_iff₀ hL35, hpow]
    exact Real.log_lt_log (by norm_num) (by norm_num)
  have hlog11 : Real.log 11 ≤ 10 := by
    have := Real.log_le_sub_one_of_pos (show (0:ℝ) < 11 by norm_num)
    linarith
  have hlog11p : (0:ℝ) < Real.log 11 := Real.log_pos (by norm_num)
  have t1 : truncated_exp_score (Real.log 4 / Real.log (7/2)) 6 (1/2) =
      (1 - Real.exp (-(1/2) * (Real.log 4 / Real.log (7/2)))) /
        (1 - Real.exp (-(1/2) * 6)) :=
    truncated_exp_score_exp_branch _ _ _ hX1p (by linarith)
  have t2 : truncated_exp_score (3 * Real.log 11) 65 (1/2) =
      (1 - Real.exp (-(1/2) * (3 * Real.log 11))) /
        (1 - Real.exp (-(1/2) * 65)) :=
    truncated_exp_score_exp_branch _ _ _ (by linarith) (by linarith)
  have t3 : truncated_exp_score (Real.log 3 / Real.log (7/2)) 6 (1/2) =
      (1 - Real.exp (-(1/2) * (Real.log 3 / Real.log (7/2)))) /
        (1 - Real.exp (-(1/2) * 6)) :=
    truncated_exp_score_exp_branch _ _ _ hX2p (by linarith)
  have t4 : truncated_exp_score (2 * Real.log 11) 65 (1/2) =
      (1 - Real.exp (-(1/2) * (2 * Real.log 11))) /
        (1 - Real.exp (-(1/2) * 65)) :=
    truncated_exp_score_exp_branch _ _ _ (by linarith) (by linarith)
  simp only [scoreDoc, e_split, eM, List.foldl_cons, List.foldl_nil]
  simp only [scoreStep, e_ccat, e_cdog, e_len, compute_normalized_tf,
    getIdfC2, c, alpha, tau_x, tau_y, lambda_exp,
    show (("cat" : String) = "cat") = True from by simp,
    show (("dog" : String) = "cat") = False from by simp,
    show (("dog" : String) = "dog") = True from by simp,
    if_true, if_false]
  norm_num
  rw [t1, t2, t3, t4]
  ring_nf

end MTC2413
